import Mathlib

/-!
Verification of the generation-and-extraction pipeline of the
travel-poc-backend repository (weather.service.ts, ollama.service.ts,
recommendation.service.ts).

JavaScript strings are modelled as lists of characters (`Str`); the
JavaScript string primitives used by the source (`split`, `trim`,
`startsWith`, `substring`, `indexOf`, `toLowerCase`, `parseInt`,
`join`, `slice`) are modelled by executable Lean functions below.
A JavaScript `try { body } catch { handler }` whose body may throw is
modelled by an `Option`-valued body (a partial operation such as
indexing past the end of an array yields `none`, which aborts the body
as a thrown exception does) together with an explicit handler record.
-/

namespace TravelPoc

/-- JavaScript strings, modelled as lists of characters. -/
abbrev Str := List Char

/-- Embed a Lean string literal as a modelled JavaScript string. -/
def str (s : String) : Str := s.toList

/-- Characters removed by JavaScript String.prototype.trim (ASCII range). -/
def isWsChar (c : Char) : Bool :=
  c = ' ' || c = '\t' || c = '\n' || c = '\r' || c = '\x0b' || c = '\x0c'

/-- JavaScript String.prototype.trim: strip whitespace from both ends. -/
def jsTrim (s : Str) : Str :=
  ((s.dropWhile isWsChar).reverse.dropWhile isWsChar).reverse

/-- JavaScript String.prototype.split with a one-character separator:
splits at every occurrence, keeps empty segments, and yields one
(empty) segment for the empty string. -/
def jsSplit (sep : Char) : Str → List Str
  | [] => [[]]
  | c :: rest =>
    if c = sep then [] :: jsSplit sep rest
    else
      match jsSplit sep rest with
      | [] => [[c]]
      | h :: t => (c :: h) :: t

/-- JavaScript Array.prototype.join with a one-character separator. -/
def jsJoin (sep : Char) : List Str → Str
  | [] => []
  | [x] => x
  | x :: y :: ys => x ++ sep :: jsJoin sep (y :: ys)

/-- The suffix of `s` after the first occurrence of `pat`: models the
source's `s.substring(s.indexOf(pat) + pat.length)` guarded by
`s.indexOf(pat) !== -1` (`none` when the pattern does not occur). -/
def afterFirst (pat : Str) : Str → Option Str
  | [] => if pat.isEmpty then some [] else none
  | c :: rest =>
    if pat.isPrefixOf (c :: rest) then some ((c :: rest).drop pat.length)
    else afterFirst pat rest

/-- JavaScript String.prototype.toLowerCase (ASCII range). -/
def jsToLower (s : Str) : Str := s.map Char.toLower

/-- Numeric value of a digit string. -/
def digitsVal (ds : Str) : Nat :=
  ds.foldl (fun a c => 10 * a + (c.toNat - '0'.toNat)) 0

/-- JavaScript parseInt on base-10 input: skip leading whitespace, accept
an optional sign, read the leading run of decimal digits; `none` models
NaN (no digits). The hexadecimal `0x` branch of parseInt is irrelevant
to the decimal temperature values handled here and is not modelled. -/
def jsParseInt (s : Str) : Option Int :=
  let t := s.dropWhile isWsChar
  match t with
  | '-' :: r =>
    if (r.takeWhile Char.isDigit).isEmpty then none
    else some (-(digitsVal (r.takeWhile Char.isDigit) : Int))
  | '+' :: r =>
    if (r.takeWhile Char.isDigit).isEmpty then none
    else some ((digitsVal (r.takeWhile Char.isDigit) : Int))
  | _ =>
    if (t.takeWhile Char.isDigit).isEmpty then none
    else some ((digitsVal (t.takeWhile Char.isDigit) : Int))

/-- JavaScript `a || b` on strings: the empty string is falsy. -/
def jsStrOr (a b : Str) : Str := if a = [] then b else a

/-- JavaScript `x || d` applied to a parseInt result: NaN (`none`) and 0
are falsy, so both select the default. -/
def jsNumOr (x : Option Int) (d : Int) : Int :=
  match x with
  | none => d
  | some n => if n = 0 then d else n

/-- Math.round, restricted to the integral values that reach it in this
code (parseInt results and integer defaults), on which it is the
identity. -/
def jsMathRound (n : Int) : Int := n

/-- Decimal rendering of an integer, as JavaScript template-string
interpolation renders an integral number. -/
def intStr (n : Int) : Str := (toString n).toList

/-- Lookup in a JavaScript object literal used as a dictionary. -/
def jsLookup (m : List (Str × Str)) (k : Str) : Option Str :=
  match m with
  | [] => none
  | (a, b) :: t => if a = k then some b else jsLookup t k

/-- WeatherData (weather.service.ts lines 4-10). -/
structure WeatherData where
  icon : Str
  temperature : Int
  condition : Str
  forecast : Str
  summary : Str
deriving DecidableEq

/-- TripPlanData (recommendation.service.ts); the optional summary is
always set on every code path, so it is modelled as a plain field. -/
structure TripPlanData where
  icon : Str
  title : Str
  description : Str
  activities : Str
  summary : Str
deriving DecidableEq

/-- MoneySavingTip (recommendation.service.ts). -/
structure MoneySavingTip where
  tip : Str
deriving DecidableEq

/-- The icon dictionary of getWeatherIcon (weather.service.ts lines 139-151). -/
def iconMap : List (Str × Str) :=
  [ (str "sunny", str "☀️"), (str "clear", str "☀️"),
    (str "partly-cloudy", str "🌤️"), (str "cloudy", str "☁️"),
    (str "overcast", str "☁️"), (str "rainy", str "🌧️"),
    (str "rain", str "🌧️"), (str "stormy", str "⛈️"),
    (str "snow", str "❄️"), (str "fog", str "🌫️"),
    (str "windy", str "💨") ]

/-- getWeatherIcon (weather.service.ts lines 138-154):
`iconMap[condition.toLowerCase()] || '🌤️'`. -/
def getWeatherIcon (condition : Str) : Str :=
  (jsLookup iconMap (jsToLower condition)).getD (str "🌤️")

/-- The five accumulator variables of parseOllamaWeatherResponse
(weather.service.ts lines 89-93). -/
structure WeatherScan where
  temperature : Int
  condition : Str
  englishCondition : Str
  forecast : Str
  summary : Str
deriving DecidableEq

/-- Initial accumulator values (weather.service.ts lines 89-93). -/
def initWeatherScan : WeatherScan :=
  { temperature := 25, condition := str "partly-cloudy",
    englishCondition := str "Pleasant weather", forecast := [], summary := [] }

/-- One iteration of the line loop of parseOllamaWeatherResponse
(weather.service.ts lines 95-108). `split(':')[1]` can be `undefined`
(when modelled: `none`), on which the subsequent `.trim()` would throw;
that partiality is threaded through the `Option`. -/
def weatherLineStep (st : WeatherScan) (line : Str) : Option WeatherScan :=
  let tl := jsTrim line
  if (str "TEMPERATURE:").isPrefixOf tl then
    ((jsSplit ':' tl).get? 1).map fun seg =>
      { st with temperature := jsNumOr (jsParseInt (jsTrim seg)) 25 }
  else if (str "CONDITION:").isPrefixOf tl then
    ((jsSplit ':' tl).get? 1).map fun seg =>
      { st with condition := jsToLower (jsTrim seg) }
  else if (str "ENGLISH_CONDITION:").isPrefixOf tl then
    ((jsSplit ':' tl).get? 1).map fun seg =>
      { st with englishCondition := jsTrim seg }
  else if (str "FORECAST_ENGLISH:").isPrefixOf tl then
    some { st with forecast := jsTrim (jsJoin ':' ((jsSplit ':' tl).drop 1)) }
  else if (str "SUMMARY_ENGLISH:").isPrefixOf tl then
    some { st with summary := jsTrim (jsJoin ':' ((jsSplit ':' tl).drop 1)) }
  else
    some st

/-- The full line loop of parseOllamaWeatherResponse (lines 95-108). -/
def weatherLineScan (st : WeatherScan) : List Str → Option WeatherScan
  | [] => some st
  | l :: ls =>
    match weatherLineStep st l with
    | none => none
    | some st2 => weatherLineScan st2 ls

/-- Overflow recovery (weather.service.ts lines 110-116, 429-434,
554-560): when the label occurs in the raw text and the captured value
is shorter than 50 characters, re-capture everything after the label's
first occurrence, trimmed. -/
def overflowRecapture (label captured aiResponse : Str) : Str :=
  match afterFirst label aiResponse with
  | some suffix => if captured.length < 50 then jsTrim suffix else captured
  | none => captured

/-- The record built from the scan results by parseOllamaWeatherResponse
(weather.service.ts lines 110-124). -/
def weatherRecordOf (st : WeatherScan) (aiResponse city : Str) : WeatherData :=
  let summary := overflowRecapture (str "SUMMARY_ENGLISH:") st.summary aiResponse
  { icon := getWeatherIcon st.condition,
    temperature := jsMathRound st.temperature,
    condition := st.englishCondition,
    forecast := jsStrOr st.forecast
      (getWeatherIcon st.condition ++ str " Forecast for " ++ city ++ str ": " ++
        st.englishCondition ++ str ", temperature " ++ intStr st.temperature ++ str "°C"),
    summary := jsStrOr summary
      (str "The weather in " ++ city ++ str " is expected to be " ++ st.englishCondition ++
        str " with a temperature of " ++ intStr st.temperature ++ str "°C.") }

/-- The catch handler of parseOllamaWeatherResponse (weather.service.ts
lines 125-135): the degraded record built directly from the raw text. -/
def weatherDegraded (aiResponse city : Str) : WeatherData :=
  { icon := str "🌤️", temperature := 25, condition := str "Pleasant weather",
    forecast := str "🌤️ Forecast for " ++ city ++ str ": Pleasant weather",
    summary := jsStrOr (aiResponse.take 300)
      (str "The weather in " ++ city ++ str " looks pleasant.") }

/-- parseOllamaWeatherResponse (weather.service.ts lines 85-136). -/
def parseOllamaWeatherResponse (aiResponse city : Str) : WeatherData :=
  match weatherLineScan initWeatherScan (jsSplit '\n' aiResponse) with
  | some st => weatherRecordOf st aiResponse city
  | none => weatherDegraded aiResponse city

/-- getFallbackWeatherData (weather.service.ts lines 174-182); the city
and date arguments are accepted and ignored, as in the source. -/
def getFallbackWeatherData (city startDate endDate : Str) : WeatherData :=
  { icon := [], temperature := -1, condition := str "Unknown",
    forecast := str "Unable to load weather forecast at this time",
    summary := str "Unable to load weather forecast at this time" }

/-- JavaScript exception values: axios errors carry a `code` property,
plain `Error` objects do not. -/
inductive JsError where
  | axiosErr (code : Str) (message : Str)
  | plain (message : Str)
deriving DecidableEq

/-- The `error.code` property (undefined on a plain Error). -/
def jsErrorCode : JsError → Option Str
  | .axiosErr c _ => some c
  | .plain _ => none

/-- generateResponse (ollama.service.ts lines 256-279). The axios call
is abstracted as its outcome: either the response text of a successful
`POST /api/generate`, or the raised error. On success the trimmed text
is returned; a connection-refused failure is replaced by a distinguished
remediation error; any other failure is re-raised unchanged. -/
def generateResponse (outcome : Except JsError Str) : Except JsError Str :=
  match outcome with
  | .ok respText => .ok (jsTrim respText)
  | .error e =>
    if jsErrorCode e = some (str "ECONNREFUSED") then
      .error (.plain (str "Ollama not running. Please start with: `ollama serve`"))
    else
      .error e

/-- The head segment of a split, as in `s.split(sep)[0]` (total, since
split is never empty). -/
def jsSplitHead (sep : Char) (s : Str) : Str :=
  match jsSplit sep s with
  | [] => []
  | h :: _ => h

/-- The per-entry model test of ensureModelExists (ollama.service.ts
lines 224-227): `model.name === this.ollamaModel ||
model.name.startsWith(this.ollamaModel.split(':')[0])`. -/
def modelNameMatches (ollamaModel name : Str) : Bool :=
  name == ollamaModel || (jsSplitHead ':' ollamaModel).isPrefixOf name

/-- The `hasModel` test of ensureModelExists (ollama.service.ts line 224). -/
def hasModel (models : List Str) (ollamaModel : Str) : Bool :=
  models.any fun m => modelNameMatches ollamaModel m

/-- The model-presence test as the specification words it, for
comparison with `modelNameMatches`: the entry's name equals the target,
or the entry's name shares the same prefix before its first ':'
separator as the target (base-name equality). -/
def claimModelMatches (ollamaModel name : Str) : Bool :=
  name == ollamaModel || jsSplitHead ':' name == jsSplitHead ':' ollamaModel

/-- getWeatherData (weather.service.ts lines 18-31), with the inference
call abstracted by its axios outcome: the composition of
generateResponse and parseOllamaWeatherResponse inside a try/catch whose
handler returns the static fallback. The intermediate
generateCompleteWeatherData (lines 33-47) only logs and re-raises, so it
is semantically the identity on this path. -/
def getWeatherData (gen : Except JsError Str) (city startDate endDate trip : Str) :
    WeatherData :=
  match generateResponse gen with
  | .ok aiResponse => parseOllamaWeatherResponse aiResponse city
  | .error _ => getFallbackWeatherData city startDate endDate

/-- The four accumulator variables of parseOllamaTripPlanResponse
(recommendation.service.ts lines 410-413). -/
structure TripScan where
  title : Str
  description : Str
  activities : Str
  summary : Str
deriving DecidableEq

/-- Initial accumulator values (recommendation.service.ts lines 410-413). -/
def initTripScan : TripScan :=
  { title := [], description := [], activities := [], summary := [] }

/-- One iteration of the line loop of parseOllamaTripPlanResponse
(recommendation.service.ts lines 415-426); all four captures use
`split(':').slice(1).join(':').trim()`, which is total. -/
def tripLineStep (st : TripScan) (line : Str) : TripScan :=
  let tl := jsTrim line
  if (str "TITLE:").isPrefixOf tl then
    { st with title := jsTrim (jsJoin ':' ((jsSplit ':' tl).drop 1)) }
  else if (str "DESCRIPTION:").isPrefixOf tl then
    { st with description := jsTrim (jsJoin ':' ((jsSplit ':' tl).drop 1)) }
  else if (str "ACTIVITIES:").isPrefixOf tl then
    { st with activities := jsTrim (jsJoin ':' ((jsSplit ':' tl).drop 1)) }
  else if (str "SUMMARY:").isPrefixOf tl then
    { st with summary := jsTrim (jsJoin ':' ((jsSplit ':' tl).drop 1)) }
  else st

/-- The full line loop of parseOllamaTripPlanResponse (lines 415-426). -/
def tripLineScan (st : TripScan) : List Str → TripScan
  | [] => st
  | l :: ls => tripLineScan (tripLineStep st l) ls

/-- The record built by parseOllamaTripPlanResponse
(recommendation.service.ts lines 428-442). -/
def tripRecordOf (st : TripScan) (aiResponse city : Str) : TripPlanData :=
  let summary := overflowRecapture (str "SUMMARY:") st.summary aiResponse
  { icon := str "🗺️",
    title := jsStrOr st.title (str "Trip to " ++ city),
    description := jsStrOr st.description
      (str "Discover the best of " ++ city ++ str " with our curated itinerary."),
    activities := jsStrOr st.activities
      (str "Explore " ++ city ++ str ", visit local attractions, and try local cuisine."),
    summary := jsStrOr summary
      (str "Discover the best of " ++ city ++
        str " with our curated recommendations for activities, attractions, and dining experiences.") }

/-- The catch handler of parseOllamaTripPlanResponse
(recommendation.service.ts lines 443-453): the degraded record built
directly from the raw text. -/
def tripDegraded (aiResponse city : Str) : TripPlanData :=
  { icon := str "🗺️",
    title := str "Trip to " ++ city,
    description := str "Discover the best of " ++ city ++ str " with our curated itinerary.",
    activities := jsStrOr (aiResponse.take 200)
      (str "Explore " ++ city ++ str ", visit local attractions, and try local cuisine."),
    summary := jsStrOr (aiResponse.take 300)
      (str "Discover the best of " ++ city ++ str " with our curated recommendations.") }

/-- parseOllamaTripPlanResponse (recommendation.service.ts lines
406-454). Its body contains no partial operation (all captures use the
total slice/join form), so the source's catch clause cannot fire; the
catch handler's record is modelled separately as `tripDegraded`. -/
def parseOllamaTripPlanResponse (aiResponse city : Str) : TripPlanData :=
  tripRecordOf (tripLineScan initTripScan (jsSplit '\n' aiResponse)) aiResponse city

/-- getFallbackTripPlanData (recommendation.service.ts lines 456-464). -/
def getFallbackTripPlanData (city startDate endDate : Str) : TripPlanData :=
  { icon := str "🗺️", title := str "Trip Planning",
    description := str "Unable to load trip planning suggestions for " ++ city ++
      str " at this time",
    activities := str "Unable to load trip planning suggestions at this time",
    summary := str "Unable to load trip planning suggestions at this time" }

/-- getTripPlan (recommendation.service.ts lines 339-352), with the
inference call abstracted by its axios outcome. -/
def getTripPlan (gen : Except JsError Str) (city startDate endDate trip : Str) :
    TripPlanData :=
  match generateResponse gen with
  | .ok aiResponse => parseOllamaTripPlanResponse aiResponse city
  | .error _ => getFallbackTripPlanData city startDate endDate

/-- The line loop of parseMoneySavingTipsResponse
(recommendation.service.ts lines 546-552): unlike the weather and
trip-plan loops, it `break`s at the first matching line. -/
def tipsLineScan : List Str → Str
  | [] => []
  | l :: ls =>
    let tl := jsTrim l
    if (str "TIP:").isPrefixOf tl then jsTrim (jsJoin ':' ((jsSplit ':' tl).drop 1))
    else tipsLineScan ls

/-- The shared default tip text (recommendation.service.ts lines 563,
568, 575). -/
def tipsDefault : Str :=
  str "Consider using public transportation, buying attraction tickets in advance, and looking for local deals to save money on your trip."

/-- The record built by parseMoneySavingTipsResponse
(recommendation.service.ts lines 554-564). -/
def tipsRecordOf (scanned aiResponse : Str) : MoneySavingTip :=
  { tip := jsStrOr (overflowRecapture (str "TIP:") scanned aiResponse) tipsDefault }

/-- The catch handler of parseMoneySavingTipsResponse
(recommendation.service.ts lines 565-570). -/
def tipsDegraded (aiResponse : Str) : MoneySavingTip :=
  { tip := jsStrOr (aiResponse.take 300) tipsDefault }

/-- parseMoneySavingTipsResponse (recommendation.service.ts lines
541-571). Its body contains no partial operation, so the source's catch
clause cannot fire; the handler is modelled as `tipsDegraded`. -/
def parseMoneySavingTipsResponse (aiResponse : Str) : MoneySavingTip :=
  tipsRecordOf (tipsLineScan (jsSplit '\n' aiResponse)) aiResponse

/-- getFallbackMoneySavingTips (recommendation.service.ts lines 573-577). -/
def getFallbackMoneySavingTips : MoneySavingTip := { tip := tipsDefault }

/-- getMoneySavingTips (recommendation.service.ts lines 466-483), with
the inference call abstracted by its axios outcome. -/
def getMoneySavingTips (gen : Except JsError Str) (cities : List Str)
    (startDate endDate tripName : Str) : MoneySavingTip :=
  match generateResponse gen with
  | .ok aiResponse => parseMoneySavingTipsResponse aiResponse
  | .error _ => getFallbackMoneySavingTips

/-- Milliseconds per day (1000 * 60 * 60 * 24). -/
def msPerDay : Int := 86400000

/-- Math.ceil (a / b) for an integer numerator and positive integer
denominator, computed exactly as a ceiling division. -/
def jsMathCeilDiv (a b : Int) : Int := -(Int.fdiv (-a) b)

/-- The trip-duration expression shared verbatim by
createCompleteWeatherPrompt (weather.service.ts line 54),
createTripPlanPrompt (recommendation.service.ts line 375) and
createMoneySavingTipsPrompt (recommendation.service.ts line 514):
`Math.ceil((end.getTime() - start.getTime()) / (1000 * 60 * 60 * 24))`. -/
def tripDurationDays (startMs endMs : Int) : Int :=
  jsMathCeilDiv (endMs - startMs) msPerDay

/-- Days between 1970-01-01 and the given civil date (proleptic
Gregorian, floor divisions). -/
def daysFromCivil (y m d : Int) : Int :=
  let yAdj := if m ≤ 2 then y - 1 else y
  let era := Int.fdiv yAdj 400
  let yoe := yAdj - era * 400
  let mp := if 2 < m then m - 3 else m + 9
  let doy := Int.fdiv (153 * mp + 2) 5 + d - 1
  let doe := yoe * 365 + Int.fdiv yoe 4 - Int.fdiv yoe 100 + doy
  era * 146097 + doe - 719468

/-- Models `new Date("YYYY-MM-DD").getTime()`: ECMA-262 parses a
date-only ISO string as midnight UTC, so the time value is the civil
day count times the milliseconds per day. -/
def epochMsOfDate (y m d : Int) : Int := msPerDay * daysFromCivil y m d

/-! ### Basic properties of the modelled JavaScript string primitives -/

/-- The split function never returns an empty array. -/
theorem jsSplit_ne_nil (sep : Char) (s : Str) : jsSplit sep s ≠ [] := by
  induction s with
  | nil => simp [jsSplit]
  | cons c rest ih =>
    simp only [jsSplit]
    split
    · simp
    · cases h : jsSplit sep rest with
      | nil => simp
      | cons h t => simp

/-- Splitting a string that starts with a separator-free prefix `s`
followed by a separator yields `s` as the first segment. -/
theorem jsSplit_append_nosep (sep : Char) (s v : Str) (h : ∀ c ∈ s, ¬(c = sep)) :
    jsSplit sep (s ++ sep :: v) = s :: jsSplit sep v := by
  induction s with
  | nil => simp [jsSplit]
  | cons c cs ih =>
    have hc : ¬(c = sep) := h c (by simp)
    have ih2 := ih (fun d hd => h d (by simp [hd]))
    simp only [List.cons_append, jsSplit, if_neg hc]
    rw [show cs.append (sep :: v) = cs ++ sep :: v from rfl, ih2]

/-- Joining on the separator undoes splitting on it. -/
theorem jsJoin_jsSplit (sep : Char) (v : Str) : jsJoin sep (jsSplit sep v) = v := by
  induction v with
  | nil => simp [jsSplit, jsJoin]
  | cons c rest ih =>
    simp only [jsSplit]
    by_cases hc : c = sep
    · subst hc
      simp only [if_pos rfl]
      cases h : jsSplit c rest with
      | nil => exact absurd h (jsSplit_ne_nil c rest)
      | cons y ys =>
        rw [h] at ih
        simp only [jsJoin, List.nil_append]
        cases ys with
        | nil => simp only [jsJoin] at ih; simp [jsJoin, ih]
        | cons z zs => simp only [jsJoin] at ih ⊢; simp [ih]
    · rw [if_neg hc]
      cases h : jsSplit sep rest with
      | nil => exact absurd h (jsSplit_ne_nil sep rest)
      | cons y ys =>
        rw [h] at ih
        cases ys with
        | nil =>
          simp only [jsJoin] at ih
          simp [jsJoin, ih]
        | cons z zs =>
          simp only [jsJoin] at ih ⊢
          simp [ih]

/-- The first segment of a split is the longest separator-free prefix. -/
theorem jsSplit_head_eq (sep : Char) (v : Str) :
    ∃ t, jsSplit sep v = v.takeWhile (fun c => c != sep) :: t := by
  induction v with
  | nil => exact ⟨[], rfl⟩
  | cons c rest ih =>
    by_cases hc : c = sep
    · subst hc
      refine ⟨jsSplit c rest, ?_⟩
      simp [jsSplit, List.takeWhile]
    · obtain ⟨t, ht⟩ := ih
      refine ⟨t, ?_⟩
      simp only [jsSplit, if_neg hc, ht, List.takeWhile]
      have : (c != sep) = true := by simp [bne, hc]
      simp [this]

/-- Indexing the split of `s ++ sep :: v` (separator-free `s`) at 1
yields the longest separator-free front of `v`. -/
theorem jsSplit_get1 (sep : Char) (s v : Str) (h : ∀ c ∈ s, ¬(c = sep)) :
    (jsSplit sep (s ++ sep :: v)).get? 1 =
      some (v.takeWhile (fun c => c != sep)) := by
  rw [jsSplit_append_nosep sep s v h]
  obtain ⟨t, ht⟩ := jsSplit_head_eq sep v
  simp [ht]

/-- Splitting `s ++ sep :: v` (separator-free `s`), dropping the label
segment and rejoining recovers `v` exactly. -/
theorem jsJoin_drop1 (sep : Char) (s v : Str) (h : ∀ c ∈ s, ¬(c = sep)) :
    jsJoin sep ((jsSplit sep (s ++ sep :: v)).drop 1) = v := by
  rw [jsSplit_append_nosep sep s v h]
  simp [jsJoin_jsSplit]

/-- A nonempty pattern is not a prefix of a string whose first character
differs from the pattern's. -/
theorem isPrefixOf_cons_append_ne (a b : Char) (as bs v : Str) (h : ¬(a = b)) :
    List.isPrefixOf (a :: as) ((b :: bs) ++ v) = false := by
  simp [List.cons_append, List.isPrefixOf, h]

/-- Every string is a prefix of itself followed by anything. -/
theorem isPrefixOf_self_append (p v : Str) : p.isPrefixOf (p ++ v) = true := by
  rw [ List.isPrefixOf_iff_prefix]
  exact List.prefix_append p v

/-! ### Characterisation of the line-scan steps -/

/-- Under a `LABEL:` guard, `split(':')[1]` exists (so the subsequent
`.trim()` cannot throw). -/
theorem jsSplit_get1_isSome (lbl tl : Str)
    (hlbl : ∀ c ∈ lbl, ¬(c = ':')) (h : (lbl ++ [':']).isPrefixOf tl = true) :
    ((jsSplit ':' tl).get? 1).isSome = true := by
  rw [ List.isPrefixOf_iff_prefix] at h
  obtain ⟨rest, hrest⟩ := h
  have htl : tl = lbl ++ ':' :: rest := by rw [← hrest]; simp
  rw [htl, jsSplit_get1 ':' lbl rest hlbl]
  simp

/-- A line whose trimmed form starts with `TEMPERATURE:` updates only the
temperature, from the segment between the first and second colons. -/
theorem weatherLineStep_temperature (st : WeatherScan) (line v : Str)
    (h : jsTrim line = str "TEMPERATURE:" ++ v) :
    weatherLineStep st line =
      some { st with
        temperature := jsNumOr (jsParseInt (jsTrim (v.takeWhile (fun c => c != ':')))) 25 } := by
  have hpos : (str "TEMPERATURE:").isPrefixOf (str "TEMPERATURE:" ++ v) = true :=
    isPrefixOf_self_append _ _
  have e : str "TEMPERATURE:" ++ v = str "TEMPERATURE" ++ ':' :: v := rfl
  simp only [weatherLineStep, h, hpos, if_true]
  rw [e, jsSplit_get1 ':' (str "TEMPERATURE") v (by decide)]
  simp

/-- A line whose trimmed form starts with `CONDITION:` updates only the
condition, from the segment between the first and second colons. -/
theorem weatherLineStep_condition (st : WeatherScan) (line v : Str)
    (h : jsTrim line = str "CONDITION:" ++ v) :
    weatherLineStep st line =
      some { st with
        condition := jsToLower (jsTrim (v.takeWhile (fun c => c != ':'))) } := by
  have hT : (str "TEMPERATURE:").isPrefixOf (str "CONDITION:" ++ v) = false :=
    isPrefixOf_cons_append_ne 'T' 'C' (str "EMPERATURE:") (str "ONDITION:") v (by decide)
  have hpos : (str "CONDITION:").isPrefixOf (str "CONDITION:" ++ v) = true :=
    isPrefixOf_self_append _ _
  have e : str "CONDITION:" ++ v = str "CONDITION" ++ ':' :: v := rfl
  simp only [weatherLineStep, h, hT, hpos, if_true, Bool.false_eq_true, if_false]
  rw [e, jsSplit_get1 ':' (str "CONDITION") v (by decide)]
  simp

/-- A line whose trimmed form starts with `ENGLISH_CONDITION:` updates
only the English condition, from the segment between the first and
second colons. -/
theorem weatherLineStep_englishCondition (st : WeatherScan) (line v : Str)
    (h : jsTrim line = str "ENGLISH_CONDITION:" ++ v) :
    weatherLineStep st line =
      some { st with
        englishCondition := jsTrim (v.takeWhile (fun c => c != ':')) } := by
  have hT : (str "TEMPERATURE:").isPrefixOf (str "ENGLISH_CONDITION:" ++ v) = false :=
    isPrefixOf_cons_append_ne 'T' 'E' (str "EMPERATURE:") (str "NGLISH_CONDITION:") v (by decide)
  have hC : (str "CONDITION:").isPrefixOf (str "ENGLISH_CONDITION:" ++ v) = false :=
    isPrefixOf_cons_append_ne 'C' 'E' (str "ONDITION:") (str "NGLISH_CONDITION:") v (by decide)
  have hpos : (str "ENGLISH_CONDITION:").isPrefixOf (str "ENGLISH_CONDITION:" ++ v) = true :=
    isPrefixOf_self_append _ _
  have e : str "ENGLISH_CONDITION:" ++ v = str "ENGLISH_CONDITION" ++ ':' :: v := rfl
  simp only [weatherLineStep, h, hT, hC, hpos, if_true, Bool.false_eq_true, if_false]
  rw [e, jsSplit_get1 ':' (str "ENGLISH_CONDITION") v (by decide)]
  simp

/-- A line whose trimmed form starts with `FORECAST_ENGLISH:` captures
everything after the first colon (split, drop label, rejoin), trimmed. -/
theorem weatherLineStep_forecast (st : WeatherScan) (line v : Str)
    (h : jsTrim line = str "FORECAST_ENGLISH:" ++ v) :
    weatherLineStep st line = some { st with forecast := jsTrim v } := by
  have hT : (str "TEMPERATURE:").isPrefixOf (str "FORECAST_ENGLISH:" ++ v) = false :=
    isPrefixOf_cons_append_ne 'T' 'F' (str "EMPERATURE:") (str "ORECAST_ENGLISH:") v (by decide)
  have hC : (str "CONDITION:").isPrefixOf (str "FORECAST_ENGLISH:" ++ v) = false :=
    isPrefixOf_cons_append_ne 'C' 'F' (str "ONDITION:") (str "ORECAST_ENGLISH:") v (by decide)
  have hE : (str "ENGLISH_CONDITION:").isPrefixOf (str "FORECAST_ENGLISH:" ++ v) = false :=
    isPrefixOf_cons_append_ne 'E' 'F' (str "NGLISH_CONDITION:") (str "ORECAST_ENGLISH:") v (by decide)
  have hpos : (str "FORECAST_ENGLISH:").isPrefixOf (str "FORECAST_ENGLISH:" ++ v) = true :=
    isPrefixOf_self_append _ _
  have e : str "FORECAST_ENGLISH:" ++ v = str "FORECAST_ENGLISH" ++ ':' :: v := rfl
  simp only [weatherLineStep, h, hT, hC, hE, hpos, if_true, Bool.false_eq_true, if_false]
  rw [e, jsJoin_drop1 ':' (str "FORECAST_ENGLISH") v (by decide)]

/-- A line whose trimmed form starts with `SUMMARY_ENGLISH:` captures
everything after the first colon (split, drop label, rejoin), trimmed. -/
theorem weatherLineStep_summary (st : WeatherScan) (line v : Str)
    (h : jsTrim line = str "SUMMARY_ENGLISH:" ++ v) :
    weatherLineStep st line = some { st with summary := jsTrim v } := by
  have hT : (str "TEMPERATURE:").isPrefixOf (str "SUMMARY_ENGLISH:" ++ v) = false :=
    isPrefixOf_cons_append_ne 'T' 'S' (str "EMPERATURE:") (str "UMMARY_ENGLISH:") v (by decide)
  have hC : (str "CONDITION:").isPrefixOf (str "SUMMARY_ENGLISH:" ++ v) = false :=
    isPrefixOf_cons_append_ne 'C' 'S' (str "ONDITION:") (str "UMMARY_ENGLISH:") v (by decide)
  have hE : (str "ENGLISH_CONDITION:").isPrefixOf (str "SUMMARY_ENGLISH:" ++ v) = false :=
    isPrefixOf_cons_append_ne 'E' 'S' (str "NGLISH_CONDITION:") (str "UMMARY_ENGLISH:") v (by decide)
  have hF : (str "FORECAST_ENGLISH:").isPrefixOf (str "SUMMARY_ENGLISH:" ++ v) = false :=
    isPrefixOf_cons_append_ne 'F' 'S' (str "ORECAST_ENGLISH:") (str "UMMARY_ENGLISH:") v (by decide)
  have hpos : (str "SUMMARY_ENGLISH:").isPrefixOf (str "SUMMARY_ENGLISH:" ++ v) = true :=
    isPrefixOf_self_append _ _
  have e : str "SUMMARY_ENGLISH:" ++ v = str "SUMMARY_ENGLISH" ++ ':' :: v := rfl
  simp only [weatherLineStep, h, hT, hC, hE, hF, hpos, if_true, Bool.false_eq_true, if_false]
  rw [e, jsJoin_drop1 ':' (str "SUMMARY_ENGLISH") v (by decide)]

/-- The weather line step never throws: in every guarded branch the
indexed segment `split(':')[1]` exists. -/
theorem weatherLineStep_isSome (st : WeatherScan) (line : Str) :
    (weatherLineStep st line).isSome = true := by
  simp only [weatherLineStep]
  by_cases h1 : (str "TEMPERATURE:").isPrefixOf (jsTrim line) = true
  · simp only [h1, if_true]
    obtain ⟨seg, hseg⟩ := Option.isSome_iff_exists.mp
      (jsSplit_get1_isSome (str "TEMPERATURE") (jsTrim line) (by decide) h1)
    rw [hseg]; rfl
  · simp only [h1, Bool.false_eq_true, if_false]
    by_cases h2 : (str "CONDITION:").isPrefixOf (jsTrim line) = true
    · simp only [h2, if_true]
      obtain ⟨seg, hseg⟩ := Option.isSome_iff_exists.mp
        (jsSplit_get1_isSome (str "CONDITION") (jsTrim line) (by decide) h2)
      rw [hseg]; rfl
    · simp only [h2, Bool.false_eq_true, if_false]
      by_cases h3 : (str "ENGLISH_CONDITION:").isPrefixOf (jsTrim line) = true
      · simp only [h3, if_true]
        obtain ⟨seg, hseg⟩ := Option.isSome_iff_exists.mp
          (jsSplit_get1_isSome (str "ENGLISH_CONDITION") (jsTrim line) (by decide) h3)
        rw [hseg]; rfl
      · simp only [h3, Bool.false_eq_true, if_false]
        by_cases h4 : (str "FORECAST_ENGLISH:").isPrefixOf (jsTrim line) = true
        · simp [h4]
        · simp only [h4, Bool.false_eq_true, if_false]
          by_cases h5 : (str "SUMMARY_ENGLISH:").isPrefixOf (jsTrim line) = true
          · simp [h5]
          · simp [h5]

/-- The weather line scan never throws. -/
theorem weatherLineScan_isSome (lines : List Str) (st : WeatherScan) :
    (weatherLineScan st lines).isSome = true := by
  induction lines generalizing st with
  | nil => rfl
  | cons l ls ih =>
    simp only [weatherLineScan]
    obtain ⟨st2, hst2⟩ := Option.isSome_iff_exists.mp (weatherLineStep_isSome st l)
    rw [hst2]
    exact ih st2

/-- Scanning a concatenation scans the pieces in order. -/
theorem weatherLineScan_append (st : WeatherScan) (xs ys : List Str) :
    weatherLineScan st (xs ++ ys) =
      match weatherLineScan st xs with
      | none => none
      | some st2 => weatherLineScan st2 ys := by
  induction xs generalizing st with
  | nil => rfl
  | cons l ls ih =>
    simp only [List.cons_append, weatherLineScan]
    cases weatherLineStep st l with
    | none => rfl
    | some st2 => exact ih st2

/-- A line whose trimmed form starts with `TITLE:` captures everything
after the first colon, trimmed. -/
theorem tripLineStep_title (st : TripScan) (line v : Str)
    (h : jsTrim line = str "TITLE:" ++ v) :
    tripLineStep st line = { st with title := jsTrim v } := by
  have hpos : (str "TITLE:").isPrefixOf (str "TITLE:" ++ v) = true :=
    isPrefixOf_self_append _ _
  have e : str "TITLE:" ++ v = str "TITLE" ++ ':' :: v := rfl
  simp only [tripLineStep, h, hpos, if_true]
  rw [e, jsJoin_drop1 ':' (str "TITLE") v (by decide)]

/-- A line whose trimmed form starts with `DESCRIPTION:` captures
everything after the first colon, trimmed. -/
theorem tripLineStep_description (st : TripScan) (line v : Str)
    (h : jsTrim line = str "DESCRIPTION:" ++ v) :
    tripLineStep st line = { st with description := jsTrim v } := by
  have hT : (str "TITLE:").isPrefixOf (str "DESCRIPTION:" ++ v) = false :=
    isPrefixOf_cons_append_ne 'T' 'D' (str "ITLE:") (str "ESCRIPTION:") v (by decide)
  have hpos : (str "DESCRIPTION:").isPrefixOf (str "DESCRIPTION:" ++ v) = true :=
    isPrefixOf_self_append _ _
  have e : str "DESCRIPTION:" ++ v = str "DESCRIPTION" ++ ':' :: v := rfl
  simp only [tripLineStep, h, hT, hpos, if_true, Bool.false_eq_true, if_false]
  rw [e, jsJoin_drop1 ':' (str "DESCRIPTION") v (by decide)]

/-- A line whose trimmed form starts with `ACTIVITIES:` captures
everything after the first colon, trimmed. -/
theorem tripLineStep_activities (st : TripScan) (line v : Str)
    (h : jsTrim line = str "ACTIVITIES:" ++ v) :
    tripLineStep st line = { st with activities := jsTrim v } := by
  have hT : (str "TITLE:").isPrefixOf (str "ACTIVITIES:" ++ v) = false :=
    isPrefixOf_cons_append_ne 'T' 'A' (str "ITLE:") (str "CTIVITIES:") v (by decide)
  have hD : (str "DESCRIPTION:").isPrefixOf (str "ACTIVITIES:" ++ v) = false :=
    isPrefixOf_cons_append_ne 'D' 'A' (str "ESCRIPTION:") (str "CTIVITIES:") v (by decide)
  have hpos : (str "ACTIVITIES:").isPrefixOf (str "ACTIVITIES:" ++ v) = true :=
    isPrefixOf_self_append _ _
  have e : str "ACTIVITIES:" ++ v = str "ACTIVITIES" ++ ':' :: v := rfl
  simp only [tripLineStep, h, hT, hD, hpos, if_true, Bool.false_eq_true, if_false]
  rw [e, jsJoin_drop1 ':' (str "ACTIVITIES") v (by decide)]

/-- A line whose trimmed form starts with `SUMMARY:` captures everything
after the first colon, trimmed. -/
theorem tripLineStep_summary (st : TripScan) (line v : Str)
    (h : jsTrim line = str "SUMMARY:" ++ v) :
    tripLineStep st line = { st with summary := jsTrim v } := by
  have hT : (str "TITLE:").isPrefixOf (str "SUMMARY:" ++ v) = false :=
    isPrefixOf_cons_append_ne 'T' 'S' (str "ITLE:") (str "UMMARY:") v (by decide)
  have hD : (str "DESCRIPTION:").isPrefixOf (str "SUMMARY:" ++ v) = false :=
    isPrefixOf_cons_append_ne 'D' 'S' (str "ESCRIPTION:") (str "UMMARY:") v (by decide)
  have hA : (str "ACTIVITIES:").isPrefixOf (str "SUMMARY:" ++ v) = false :=
    isPrefixOf_cons_append_ne 'A' 'S' (str "CTIVITIES:") (str "UMMARY:") v (by decide)
  have hpos : (str "SUMMARY:").isPrefixOf (str "SUMMARY:" ++ v) = true :=
    isPrefixOf_self_append _ _
  have e : str "SUMMARY:" ++ v = str "SUMMARY" ++ ':' :: v := rfl
  simp only [tripLineStep, h, hT, hD, hA, hpos, if_true, Bool.false_eq_true, if_false]
  rw [e, jsJoin_drop1 ':' (str "SUMMARY") v (by decide)]

/-- The trip-plan line scan over a concatenation. -/
theorem tripLineScan_append (st : TripScan) (xs ys : List Str) :
    tripLineScan st (xs ++ ys) = tripLineScan (tripLineScan st xs) ys := by
  induction xs generalizing st with
  | nil => rfl
  | cons l ls ih =>
    simp only [List.cons_append, tripLineScan]
    rw [show ls.append ys = ls ++ ys from rfl, ih]

/-- The tip line scan stops at the first matching line: its value is
taken from that line and the remaining lines are ignored. -/
theorem tipsLineScan_cons_match (l : Str) (ls : List Str) (v : Str)
    (h : jsTrim l = str "TIP:" ++ v) :
    tipsLineScan (l :: ls) = jsTrim v := by
  have hpos : (str "TIP:").isPrefixOf (str "TIP:" ++ v) = true :=
    isPrefixOf_self_append _ _
  have e : str "TIP:" ++ v = str "TIP" ++ ':' :: v := rfl
  simp only [tipsLineScan, h, hpos, if_true]
  rw [e, jsJoin_drop1 ':' (str "TIP") v (by decide)]

/-! ### Non-emptiness facts used by the field-population claims -/

/-- A looked-up icon is one of the dictionary's values. -/
theorem jsLookup_mem (m : List (Str × Str)) (k v : Str)
    (h : jsLookup m k = some v) : v ∈ m.map Prod.snd := by
  induction m with
  | nil => simp [jsLookup] at h
  | cons p t ih =>
    simp only [jsLookup] at h
    split at h
    · cases h; simp
    · simp [ih h]

/-- Every icon the dictionary can produce, and the fallback icon, is a
non-empty string. -/
theorem getWeatherIcon_ne_nil (condition : Str) : getWeatherIcon condition ≠ [] := by
  unfold getWeatherIcon
  cases h : jsLookup iconMap (jsToLower condition) with
  | none => simp only [Option.getD]; decide
  | some v =>
    have hv := jsLookup_mem _ _ _ h
    simp only [Option.getD]
    simp only [iconMap, List.map, List.mem_cons, List.not_mem_nil, or_false] at hv
    rcases hv with h' | h' | h' | h' | h' | h' | h' | h' | h' | h' | h' <;> subst h' <;> decide

/-- The string disjunction `a || b` is non-empty whenever `b` is. -/
theorem jsStrOr_ne_nil (a b : Str) (hb : b ≠ []) : jsStrOr a b ≠ [] := by
  unfold jsStrOr
  split
  · exact hb
  · next h => exact h

/-- On every scan result, the icon, forecast and summary of the record
built by the weather extractor are non-empty (the synthesized defaults
end in non-empty literal text). -/
theorem weatherRecordOf_ne_nil (st : WeatherScan) (aiResponse city : Str) :
    (weatherRecordOf st aiResponse city).icon ≠ [] ∧
    (weatherRecordOf st aiResponse city).forecast ≠ [] ∧
    (weatherRecordOf st aiResponse city).summary ≠ [] := by
  refine ⟨?_, ?_, ?_⟩
  · simp only [weatherRecordOf]
    exact getWeatherIcon_ne_nil st.condition
  · simp only [weatherRecordOf]
    apply jsStrOr_ne_nil
    exact List.append_ne_nil_of_right_ne_nil _ (by decide)
  · simp only [weatherRecordOf]
    apply jsStrOr_ne_nil
    exact List.append_ne_nil_of_right_ne_nil _ (by decide)

/-! ### The claims -/

/-- C1: for every raw reply string the structured extractors return a
record and never raise: every weather line-scan step is defined (the
indexed segment always exists under its guard), so the weather extractor
always takes the structured path, and the trip-plan and tip extractors
are total; and the degraded record that the catch handler would build
has its summary/tip fields equal to the first 300 characters of the
(non-empty) raw reply, its activities field equal to the first 200
characters, and hard-coded defaults (icon, temperature, condition) for
the categorical fields. -/
theorem C1_extractor_total_and_degraded (aiResponse city : Str) :
    (∃ st, weatherLineScan initWeatherScan (jsSplit '\n' aiResponse) = some st ∧
        parseOllamaWeatherResponse aiResponse city = weatherRecordOf st aiResponse city) ∧
    parseOllamaTripPlanResponse aiResponse city =
      tripRecordOf (tripLineScan initTripScan (jsSplit '\n' aiResponse)) aiResponse city ∧
    parseMoneySavingTipsResponse aiResponse =
      tipsRecordOf (tipsLineScan (jsSplit '\n' aiResponse)) aiResponse ∧
    (aiResponse ≠ [] →
      (weatherDegraded aiResponse city).summary = aiResponse.take 300 ∧
      (weatherDegraded aiResponse city).icon = str "🌤️" ∧
      (weatherDegraded aiResponse city).temperature = 25 ∧
      (weatherDegraded aiResponse city).condition = str "Pleasant weather" ∧
      (tripDegraded aiResponse city).activities = aiResponse.take 200 ∧
      (tripDegraded aiResponse city).summary = aiResponse.take 300 ∧
      (tipsDegraded aiResponse).tip = aiResponse.take 300) := by
  obtain ⟨st, hst⟩ := Option.isSome_iff_exists.mp
    (weatherLineScan_isSome (jsSplit '\n' aiResponse) initWeatherScan)
  refine ⟨⟨st, hst, ?_⟩, rfl, rfl, ?_⟩
  · simp [parseOllamaWeatherResponse, hst]
  · intro hne
    have h300 : aiResponse.take 300 ≠ [] := by
      simp [List.take_eq_nil_iff, hne]
    have h200 : aiResponse.take 200 ≠ [] := by
      simp [List.take_eq_nil_iff, hne]
    refine ⟨?_, rfl, rfl, rfl, ?_, ?_, ?_⟩ <;>
      simp [weatherDegraded, tripDegraded, tipsDegraded, jsStrOr, h300, h200]

/-- Witness for C1 at a concrete non-empty reply. -/
theorem C1_witness :
    (weatherDegraded (str "hello") (str "Paris")).summary = (str "hello").take 300 ∧
    (tripDegraded (str "hello") (str "Paris")).activities = (str "hello").take 200 ∧
    (tipsDegraded (str "hello")).tip = (str "hello").take 300 := by
  have h := (C1_extractor_total_and_degraded (str "hello") (str "Paris")).2.2.2 (by decide)
  exact ⟨h.1, h.2.2.2.2.1, h.2.2.2.2.2.2⟩

/-- C2: when generation raises, each content-service entry point returns
its kind-specific static fallback record (weather: empty icon,
temperature −1, condition "Unknown", "Unable to load" texts) and
propagates no exception; on success each entry point returns the
extractor's record, so every public operation is total. -/
theorem C2_static_fallback_total (e : JsError)
    (text city startDate endDate trip tripName : Str) (cities : List Str) :
    getWeatherData (Except.error e) city startDate endDate trip =
      { icon := [], temperature := -1, condition := str "Unknown",
        forecast := str "Unable to load weather forecast at this time",
        summary := str "Unable to load weather forecast at this time" } ∧
    getTripPlan (Except.error e) city startDate endDate trip =
      getFallbackTripPlanData city startDate endDate ∧
    getMoneySavingTips (Except.error e) cities startDate endDate tripName =
      getFallbackMoneySavingTips ∧
    getWeatherData (Except.ok text) city startDate endDate trip =
      parseOllamaWeatherResponse (jsTrim text) city ∧
    getTripPlan (Except.ok text) city startDate endDate trip =
      parseOllamaTripPlanResponse (jsTrim text) city ∧
    getMoneySavingTips (Except.ok text) cities startDate endDate tripName =
      parseMoneySavingTipsResponse (jsTrim text) := by
  by_cases hc : jsErrorCode e = some (str "ECONNREFUSED") <;>
    refine ⟨?_, ?_, ?_, rfl, rfl, rfl⟩ <;>
      simp [getWeatherData, getTripPlan, getMoneySavingTips, generateResponse,
        getFallbackWeatherData, hc]

/-- C3 counterexample: not every field of every returned record is
non-empty — the outer static fallback's icon is the empty string, and
an `ENGLISH_CONDITION:` line with an empty value makes the extraction
path return an empty condition. -/
theorem C3_counterexample :
    (getFallbackWeatherData (str "Paris") (str "2024-08-15") (str "2024-08-17")).icon = [] ∧
    (parseOllamaWeatherResponse (str "ENGLISH_CONDITION:") (str "Paris")).condition = [] := by
  decide

/-- C3 (amended): on the extraction path the icon, forecast and summary
of every weather record are non-empty; for an empty raw reply every
field is non-empty and carries the documented defaults (temperature 25,
condition "Pleasant weather"); the outer static fallback instead has an
empty icon and the sentinel temperature −1. -/
theorem C3_amended_fields_populated (aiResponse city startDate endDate : Str) :
    (parseOllamaWeatherResponse aiResponse city).icon ≠ [] ∧
    (parseOllamaWeatherResponse aiResponse city).forecast ≠ [] ∧
    (parseOllamaWeatherResponse aiResponse city).summary ≠ [] ∧
    parseOllamaWeatherResponse [] (str "Paris") =
      { icon := str "🌤️", temperature := 25, condition := str "Pleasant weather",
        forecast := str "🌤️ Forecast for Paris: Pleasant weather, temperature 25°C",
        summary := str "The weather in Paris is expected to be Pleasant weather with a temperature of 25°C." } ∧
    getFallbackWeatherData city startDate endDate =
      { icon := [], temperature := -1, condition := str "Unknown",
        forecast := str "Unable to load weather forecast at this time",
        summary := str "Unable to load weather forecast at this time" } := by
  obtain ⟨st, hst⟩ := Option.isSome_iff_exists.mp
    (weatherLineScan_isSome (jsSplit '\n' aiResponse) initWeatherScan)
  have hp : parseOllamaWeatherResponse aiResponse city = weatherRecordOf st aiResponse city := by
    simp [parseOllamaWeatherResponse, hst]
  obtain ⟨h1, h2, h3⟩ := weatherRecordOf_ne_nil st aiResponse city
  refine ⟨?_, ?_, ?_, by decide, rfl⟩
  · rw [hp]; exact h1
  · rw [hp]; exact h2
  · rw [hp]; exact h3

/-- C4 counterexample: a single-value field does not capture everything
after the first colon — for `ENGLISH_CONDITION: warm: humid` the
captured condition is "warm" (the segment between the first and second
colons), not "warm: humid". -/
theorem C4_counterexample :
    (parseOllamaWeatherResponse (str "ENGLISH_CONDITION: warm: humid") (str "X")).condition =
      str "warm" ∧
    ¬ (parseOllamaWeatherResponse (str "ENGLISH_CONDITION: warm: humid") (str "X")).condition =
      str "warm: humid" := by
  decide

/-- C4 (amended): in the line scan, single-value fields (TEMPERATURE,
CONDITION, ENGLISH_CONDITION) capture the segment strictly between the
first and second colons (trimmed; `split(':')[1]`), while multi-colon
fields (FORECAST_ENGLISH, SUMMARY_ENGLISH, TITLE, DESCRIPTION,
ACTIVITIES, TIP) capture the line split on ':' with the label segment
dropped and the
remainder rejoined with ':' and trimmed, i.e. everything after the
first colon, trimmed. -/
theorem C4_amended_line_capture (st : WeatherScan) (st2 : TripScan) (line v : Str) :
    (jsTrim line = str "ENGLISH_CONDITION:" ++ v →
      weatherLineStep st line =
        some { st with englishCondition := jsTrim (v.takeWhile (fun c => c != ':')) }) ∧
    (jsTrim line = str "CONDITION:" ++ v →
      weatherLineStep st line =
        some { st with condition := jsToLower (jsTrim (v.takeWhile (fun c => c != ':'))) }) ∧
    (jsTrim line = str "TEMPERATURE:" ++ v →
      weatherLineStep st line =
        some { st with
          temperature := jsNumOr (jsParseInt (jsTrim (v.takeWhile (fun c => c != ':')))) 25 }) ∧
    (jsTrim line = str "FORECAST_ENGLISH:" ++ v →
      weatherLineStep st line = some { st with forecast := jsTrim v }) ∧
    (jsTrim line = str "SUMMARY_ENGLISH:" ++ v →
      weatherLineStep st line = some { st with summary := jsTrim v }) ∧
    (jsTrim line = str "TITLE:" ++ v →
      tripLineStep st2 line = { st2 with title := jsTrim v }) ∧
    (jsTrim line = str "DESCRIPTION:" ++ v →
      tripLineStep st2 line = { st2 with description := jsTrim v }) ∧
    (jsTrim line = str "ACTIVITIES:" ++ v →
      tripLineStep st2 line = { st2 with activities := jsTrim v }) ∧
    (∀ ls, jsTrim line = str "TIP:" ++ v → tipsLineScan (line :: ls) = jsTrim v) := by
  exact ⟨weatherLineStep_englishCondition st line v,
    weatherLineStep_condition st line v,
    weatherLineStep_temperature st line v,
    weatherLineStep_forecast st line v,
    weatherLineStep_summary st line v,
    tripLineStep_title st2 line v,
    tripLineStep_description st2 line v,
    tripLineStep_activities st2 line v,
    fun ls h => tipsLineScan_cons_match line ls v h⟩

/-- Witness for C4's amended capture rules at concrete lines containing
an internal colon. -/
theorem C4_amended_witness :
    weatherLineStep initWeatherScan (str "ENGLISH_CONDITION: warm: humid") =
      some { initWeatherScan with englishCondition := str "warm" } ∧
    weatherLineStep initWeatherScan (str "FORECAST_ENGLISH: 10:00: rain") =
      some { initWeatherScan with forecast := str "10:00: rain" } := by
  constructor
  · have h := (C4_amended_line_capture initWeatherScan initTripScan
      (str "ENGLISH_CONDITION: warm: humid") (str " warm: humid")).1 (by decide)
    rw [h]; decide
  · have h := (C4_amended_line_capture initWeatherScan initTripScan
      (str "FORECAST_ENGLISH: 10:00: rain") (str " 10:00: rain")).2.2.2.1 (by decide)
    rw [h]; decide

/-- C5: overflow recovery fires exactly when the captured summary/tip is
shorter than 50 characters and the label occurs in the raw text, in
which case the value becomes everything after the label's first
occurrence, trimmed; a captured value of 50 characters or more is kept
unchanged. -/
theorem C5_overflow_threshold (label captured raw : Str) :
    (50 ≤ captured.length → overflowRecapture label captured raw = captured) ∧
    (captured.length < 50 → ∀ suffix, afterFirst label raw = some suffix →
      overflowRecapture label captured raw = jsTrim suffix) ∧
    (afterFirst label raw = none → overflowRecapture label captured raw = captured) ∧
    (∀ scanned, (tipsRecordOf scanned raw).tip =
      jsStrOr (overflowRecapture (str "TIP:") scanned raw) tipsDefault) := by
  refine ⟨?_, ?_, ?_, fun _ => rfl⟩
  · intro h50
    unfold overflowRecapture
    cases afterFirst label raw with
    | none => rfl
    | some suffix => simp [Nat.not_lt.mpr h50]
  · intro hlt suffix hs
    unfold overflowRecapture
    rw [hs]
    simp [hlt]
  · intro hn
    unfold overflowRecapture
    rw [hn]

/-- Witness for C5: a 50-character capture is kept, a short capture is
re-captured from the label's first occurrence, and without an occurrence
the capture is kept. -/
theorem C5_witness :
    overflowRecapture (str "SUMMARY_ENGLISH:")
      (str "01234567890123456789012345678901234567890123456789")
      (str "SUMMARY_ENGLISH: x") =
      str "01234567890123456789012345678901234567890123456789" ∧
    overflowRecapture (str "SUMMARY_ENGLISH:") (str "short")
      (str "SUMMARY_ENGLISH: body\nmore body") = str "body\nmore body" ∧
    overflowRecapture (str "SUMMARY_ENGLISH:") (str "short") (str "no label here") =
      str "short" := by
  refine ⟨?_, ?_, ?_⟩
  · exact (C5_overflow_threshold _ _ _).1 (by decide)
  · have h := (C5_overflow_threshold (str "SUMMARY_ENGLISH:") (str "short")
      (str "SUMMARY_ENGLISH: body\nmore body")).2.1 (by decide)
      (str " body\nmore body") (by decide)
    rw [h]; decide
  · exact (C5_overflow_threshold _ _ _).2.2.1 (by decide)

/-- C6 counterexample: the default 25 is not substituted only on parse
failure — `TEMPERATURE: 0` parses successfully to 0, yet the record's
temperature is the default 25 (JavaScript `parseInt(x) || 25` treats 0
as falsy). -/
theorem C6_counterexample :
    (parseOllamaWeatherResponse (str "TEMPERATURE: 0") (str "X")).temperature = 25 ∧
    jsParseInt (str "0") = some 0 := by
  decide

/-- C6 (amended): the extractor parses the leading integer digits of the
segment after `TEMPERATURE:`; the default 25 is substituted when the
parse fails or when it yields 0 (both falsy); otherwise the parsed value
is kept, and since parseInt yields an integer the final Math.round is
the identity. -/
theorem C6_amended_temperature (x : Str) (st : WeatherScan) (line v : Str) :
    (jsParseInt x = none → jsNumOr (jsParseInt x) 25 = 25) ∧
    (jsParseInt x = some 0 → jsNumOr (jsParseInt x) 25 = 25) ∧
    (∀ n : Int, jsParseInt x = some n → ¬ n = 0 → jsNumOr (jsParseInt x) 25 = n) ∧
    (jsTrim line = str "TEMPERATURE:" ++ v →
      weatherLineStep st line =
        some { st with
          temperature := jsNumOr (jsParseInt (jsTrim (v.takeWhile (fun c => c != ':')))) 25 }) ∧
    (∀ n : Int, jsMathRound n = n) := by
  refine ⟨?_, ?_, ?_, weatherLineStep_temperature st line v, fun _ => rfl⟩
  · intro h; simp [jsNumOr, h]
  · intro h; simp [jsNumOr, h]
  · intro n h hn; simp [jsNumOr, h, hn]

/-- Witness for C6's amended parse/default rules at concrete segments. -/
theorem C6_amended_witness :
    jsNumOr (jsParseInt (str "19")) 25 = 19 ∧
    jsNumOr (jsParseInt (str "0")) 25 = 25 ∧
    jsNumOr (jsParseInt (str "abc")) 25 = 25 := by
  refine ⟨?_, ?_, ?_⟩
  · exact (C6_amended_temperature (str "19") initWeatherScan [] []).2.2.1 19 (by decide) (by decide)
  · exact (C6_amended_temperature (str "0") initWeatherScan [] []).2.1 (by decide)
  · exact (C6_amended_temperature (str "abc") initWeatherScan [] []).1 (by decide)

/-- C7 counterexample: the duration is not always at least 1 — for
start = end (permitted by start ≤ end) the computed duration is 0, since
the source applies no lower bound to the ceiling. -/
theorem C7_counterexample :
    tripDurationDays (epochMsOfDate 2024 8 15) (epochMsOfDate 2024 8 15) = 0 ∧
    ¬ 1 ≤ tripDurationDays (epochMsOfDate 2024 8 15) (epochMsOfDate 2024 8 15) := by
  decide

/-- C7 (amended): the prompt builders compute the duration as
`ceil((end − start) / 86400000)`; it is at least 1 when start < end and
at least 0 when start ≤ end (it is 0 when the dates coincide); the
concrete instance 2024-08-15 to 2024-08-17 yields exactly 2. -/
theorem C7_amended_duration (startMs endMs : Int) :
    tripDurationDays startMs endMs = jsMathCeilDiv (endMs - startMs) msPerDay ∧
    (startMs < endMs → 1 ≤ tripDurationDays startMs endMs) ∧
    (startMs ≤ endMs → 0 ≤ tripDurationDays startMs endMs) ∧
    tripDurationDays (epochMsOfDate 2024 8 15) (epochMsOfDate 2024 8 17) = 2 := by
  refine ⟨rfl, ?_, ?_, by decide⟩
  · intro hlt
    unfold tripDurationDays jsMathCeilDiv msPerDay
    have hcalc : Int.fdiv (-(endMs - startMs)) 86400000 ≤ -1 := by
      calc Int.fdiv (-(endMs - startMs)) 86400000
          = Int.ediv (-(endMs - startMs)) 86400000 := Int.fdiv_eq_ediv _ (by norm_num)
        _ ≤ Int.ediv (-1) 86400000 := Int.ediv_le_ediv (by norm_num) (by omega)
        _ = -1 := by decide
    linarith
  · intro hle
    unfold tripDurationDays jsMathCeilDiv msPerDay
    have hcalc : Int.fdiv (-(endMs - startMs)) 86400000 ≤ 0 := by
      calc Int.fdiv (-(endMs - startMs)) 86400000
          = Int.ediv (-(endMs - startMs)) 86400000 := Int.fdiv_eq_ediv _ (by norm_num)
        _ ≤ Int.ediv 0 86400000 := Int.ediv_le_ediv (by norm_num) (by omega)
        _ = 0 := by decide
    linarith

/-- Witness for C7's amended bounds at concrete instants. -/
theorem C7_amended_witness :
    1 ≤ tripDurationDays 0 1 ∧ 0 ≤ tripDurationDays 0 0 :=
  ⟨(C7_amended_duration 0 1).2.1 (by decide), (C7_amended_duration 0 0).2.2.1 (by decide)⟩

/-- C8 counterexample: the presence test is a prefix search on the
installed name, not a base-name comparison — an installed
`llama3.2-extra:1b` is accepted for target `llama3.2:3b` although the
base names (`llama3.2-extra` vs `llama3.2`) differ, so the claimed
iff fails. -/
theorem C8_counterexample :
    hasModel [str "llama3.2-extra:1b"] (str "llama3.2:3b") = true ∧
    claimModelMatches (str "llama3.2:3b") (str "llama3.2-extra:1b") = false := by
  decide

/-- C8 (amended): the target model is considered present iff some
installed model's name equals the target or starts with the target's
base name (the text before the target's first ':'); this prefix match
accepts `llama3.2:1b` for target `llama3.2:3b`, but also accepts
unrelated models whose names merely extend the base name. -/
theorem C8_amended_model_match (models : List Str) (target : Str) :
    (hasModel models target = true ↔
      ∃ name ∈ models, name = target ∨ (jsSplitHead ':' target).isPrefixOf name = true) ∧
    modelNameMatches (str "llama3.2:3b") (str "llama3.2:1b") = true := by
  constructor
  · simp [hasModel, modelNameMatches, List.any_eq_true]
  · decide

/-- C9: generateResponse returns the trimmed response text on success;
on failure it raises — a connection-refused error becomes a
distinguished error carrying the remediation text telling the user to
start the inference server, and any other error is re-raised
unchanged. -/
theorem C9_generate_response_contract (t : Str) (e : JsError) :
    generateResponse (Except.ok t) = Except.ok (jsTrim t) ∧
    (jsErrorCode e = some (str "ECONNREFUSED") →
      generateResponse (Except.error e) =
        Except.error (JsError.plain
          (str "Ollama not running. Please start with: `ollama serve`"))) ∧
    (¬ jsErrorCode e = some (str "ECONNREFUSED") →
      generateResponse (Except.error e) = Except.error e) := by
  refine ⟨rfl, ?_, ?_⟩
  · intro h; simp [generateResponse, h]
  · intro h; simp [generateResponse, h]

/-- Witness for C9 at a connection-refused error and at an unrelated
error. -/
theorem C9_witness :
    generateResponse (Except.error
        (JsError.axiosErr (str "ECONNREFUSED") (str "connect ECONNREFUSED"))) =
      Except.error (JsError.plain
        (str "Ollama not running. Please start with: `ollama serve`")) ∧
    generateResponse (Except.error (JsError.plain (str "timeout of 60000ms exceeded"))) =
      Except.error (JsError.plain (str "timeout of 60000ms exceeded")) :=
  ⟨(C9_generate_response_contract (str "") _).2.1 (by decide),
   (C9_generate_response_contract (str "") _).2.2 (by decide)⟩

/-- C10: in the weather and trip-plan line scans a later matching line
overwrites an earlier capture (last match wins, for every label:
TEMPERATURE, CONDITION, ENGLISH_CONDITION, FORECAST_ENGLISH,
SUMMARY_ENGLISH, TITLE, DESCRIPTION, ACTIVITIES, SUMMARY), while the
tip line scan stops at the first line starting with `TIP:` and keeps
that line's value. -/
theorem C10_last_wins_first_wins (st0 : WeatherScan) (ts : TripScan)
    (xs ls : List Str) (l v : Str) :
    (jsTrim l = str "TEMPERATURE:" ++ v →
      ∀ st2, weatherLineScan st0 xs = some st2 →
        weatherLineScan st0 (xs ++ [l]) = some { st2 with
          temperature := jsNumOr (jsParseInt (jsTrim (v.takeWhile (fun c => c != ':')))) 25 }) ∧
    (jsTrim l = str "CONDITION:" ++ v →
      ∀ st2, weatherLineScan st0 xs = some st2 →
        weatherLineScan st0 (xs ++ [l]) = some { st2 with
          condition := jsToLower (jsTrim (v.takeWhile (fun c => c != ':'))) }) ∧
    (jsTrim l = str "ENGLISH_CONDITION:" ++ v →
      ∀ st2, weatherLineScan st0 xs = some st2 →
        weatherLineScan st0 (xs ++ [l]) = some { st2 with
          englishCondition := jsTrim (v.takeWhile (fun c => c != ':')) }) ∧
    (jsTrim l = str "FORECAST_ENGLISH:" ++ v →
      ∀ st2, weatherLineScan st0 xs = some st2 →
        weatherLineScan st0 (xs ++ [l]) = some { st2 with forecast := jsTrim v }) ∧
    (jsTrim l = str "SUMMARY_ENGLISH:" ++ v →
      ∀ st2, weatherLineScan st0 xs = some st2 →
        weatherLineScan st0 (xs ++ [l]) = some { st2 with summary := jsTrim v }) ∧
    (jsTrim l = str "TITLE:" ++ v →
      tripLineScan ts (xs ++ [l]) = { tripLineScan ts xs with title := jsTrim v }) ∧
    (jsTrim l = str "DESCRIPTION:" ++ v →
      tripLineScan ts (xs ++ [l]) = { tripLineScan ts xs with description := jsTrim v }) ∧
    (jsTrim l = str "ACTIVITIES:" ++ v →
      tripLineScan ts (xs ++ [l]) = { tripLineScan ts xs with activities := jsTrim v }) ∧
    (jsTrim l = str "SUMMARY:" ++ v →
      tripLineScan ts (xs ++ [l]) = { tripLineScan ts xs with summary := jsTrim v }) ∧
    (jsTrim l = str "TIP:" ++ v → tipsLineScan (l :: ls) = jsTrim v) ∧
    tipsLineScan (jsSplit '\n' (str "TIP: first tip\nTIP: second tip")) = str "first tip" ∧
    (weatherLineScan initWeatherScan
        (jsSplit '\n' (str "SUMMARY_ENGLISH: one\nSUMMARY_ENGLISH: two"))).map
      (fun st => st.summary) = some (str "two") := by
  refine ⟨?_, ?_, ?_, ?_, ?_, ?_, ?_, ?_, ?_,
    fun h => tipsLineScan_cons_match l ls v h, by decide, by decide⟩
  · intro h st2 hscan
    rw [weatherLineScan_append, hscan]
    show weatherLineScan st2 [l] = _
    simp only [weatherLineScan]
    rw [weatherLineStep_temperature st2 l v h]
  · intro h st2 hscan
    rw [weatherLineScan_append, hscan]
    show weatherLineScan st2 [l] = _
    simp only [weatherLineScan]
    rw [weatherLineStep_condition st2 l v h]
  · intro h st2 hscan
    rw [weatherLineScan_append, hscan]
    show weatherLineScan st2 [l] = _
    simp only [weatherLineScan]
    rw [weatherLineStep_englishCondition st2 l v h]
  · intro h st2 hscan
    rw [weatherLineScan_append, hscan]
    show weatherLineScan st2 [l] = _
    simp only [weatherLineScan]
    rw [weatherLineStep_forecast st2 l v h]
  · intro h st2 hscan
    rw [weatherLineScan_append, hscan]
    show weatherLineScan st2 [l] = _
    simp only [weatherLineScan]
    rw [weatherLineStep_summary st2 l v h]
  · intro h
    rw [tripLineScan_append]
    show tripLineStep (tripLineScan ts xs) l = _
    exact tripLineStep_title _ l v h
  · intro h
    rw [tripLineScan_append]
    show tripLineStep (tripLineScan ts xs) l = _
    exact tripLineStep_description _ l v h
  · intro h
    rw [tripLineScan_append]
    show tripLineStep (tripLineScan ts xs) l = _
    exact tripLineStep_activities _ l v h
  · intro h
    rw [tripLineScan_append]
    show tripLineStep (tripLineScan ts xs) l = _
    exact tripLineStep_summary _ l v h

/-- Witness for C10 at concrete line lists: a repeated TEMPERATURE line
keeps the last value, a repeated TIP line keeps the first. -/
theorem C10_witness :
    weatherLineScan initWeatherScan ([str "TEMPERATURE: 10"] ++ [str "TEMPERATURE: 20"]) =
      some { initWeatherScan with temperature := 20 } ∧
    tipsLineScan (str "TIP: pack light" :: [str "TIP: later"]) = str "pack light" := by
  constructor
  · have h := (C10_last_wins_first_wins initWeatherScan initTripScan
      [str "TEMPERATURE: 10"] [] (str "TEMPERATURE: 20") (str " 20")).1 (by decide)
      { initWeatherScan with temperature := 10 } (by decide)
    rw [h]; decide
  · have h := (C10_last_wins_first_wins initWeatherScan initTripScan [] [str "TIP: later"]
      (str "TIP: pack light") (str " pack light")).2.2.2.2.2.2.2.2.2.1 (by decide)
    rw [h]; decide

end TravelPoc
